import Mathlib

/-!
Shallow embedding of the cvent/couchbase-driver library (src/unnamed/part_000,
the current `lib` source) together with proofs about the claims of its
specification.  JavaScript values are modelled as follows: an error object is
a `CBError` with an optional numeric `code` and optional `message` (absent
fields are `none`; the truthiness tests `err.code && ...` and
`err.message && ...` become the explicit zero / empty-string tests of the
source); an absent value (`undefined` / `null`) is `Option.none`; callback
invocation `fn(err, res)` becomes the pair `(err, res)`.
-/

namespace Driver

/-- Checks that the second character list begins the first one. -/
def listStartsWith : List Char → List Char → Bool
  | _, [] => true
  | [], _ :: _ => false
  | a :: as, b :: bs => a == b && listStartsWith as bs

/-- Substring occurrence test over character lists; models JavaScript
`String.prototype.indexOf(sub) >= 0`. -/
def listHasSub : List Char → List Char → Bool
  | [], sub => sub.isEmpty
  | a :: as, sub => listStartsWith (a :: as) sub || listHasSub as sub

/-- Model of a couchbase error object: optional numeric `code` field and
optional `message` field.  A JavaScript error without the field has `none`. -/
structure CBError where
  code : Option Nat
  message : Option String
deriving Repr, DecidableEq

/-- Model of `errors.keyNotFound` of the couchbase module (numeric value 13,
which is also the legacy code compared via `err.code.toString() === invalid`). -/
def errorsKeyNotFound : Nat := 13

/-- Model of `errors.temporaryError` of the couchbase module (numeric value 11). -/
def errorsTemporaryError : Nat := 11

/-- Truthiness of the `code` field followed by comparison with `n`; models
`err.code && err.code === n` (code 0 is falsy in JavaScript). -/
def codeIs (e : CBError) (n : Nat) : Bool :=
  match e.code with
  | some c => c != 0 && c == n
  | none => false

/-- Truthiness of the `message` field followed by an exact comparison; models
`err.message && err.message === s`. -/
def messageEq (e : CBError) (s : String) : Bool :=
  match e.message with
  | some m => m.length != 0 && m == s
  | none => false

/-- Truthiness of the `message` field followed by a substring test; models
`err.message && err.message.indexOf(s) >= 0`. -/
def messageHas (e : CBError) (s : String) : Bool :=
  match e.message with
  | some m => m.length != 0 && listHasSub m.toList s.toList
  | none => false

/-- Driver.isKeyNotFound, translated from part_000 lines 106-123.  The five
source checks appear in order; the first and last both collapse to numeric
code 13 in this model (the source distinguishes the number 13 from a code
whose toString is the string form of 13). -/
def isKeyNotFound (err : Option CBError) : Bool :=
  match err with
  | none => false
  | some e =>
    codeIs e errorsKeyNotFound ||
    messageEq e "key not found" ||
    messageHas e "key does not exist" ||
    messageHas e "key not found" ||
    codeIs e 13

/-- Driver.isTemporaryError, translated from part_000 lines 132-145. -/
def isTemporaryError (err : Option CBError) : Bool :=
  match err with
  | none => false
  | some e =>
    codeIs e errorsTemporaryError ||
    messageHas e "Temporary failure" ||
    codeIs e 11

/-- Driver-wide configuration after `defaults(options, defaultOptions)` in the
constructor: every field is present.  `saveOptions` is omitted because the
atomic code reads `options.saveOptions` from the per-call bag only. -/
structure DriverConfig where
  tempRetryTimes : Nat
  tempRetryInterval : Nat
  retryTemporaryErrors : Bool
  atomicRetryTimes : Nat
  atomicRetryInterval : Nat
  atomicLock : Bool
  missing : Bool
deriving Repr, DecidableEq

/-- The `defaultOptions` constant of part_000 lines 25-34. -/
def defaultOptions : DriverConfig :=
  { tempRetryTimes := 5
    tempRetryInterval := 50
    retryTemporaryErrors := false
    atomicRetryTimes := 5
    atomicRetryInterval := 0
    atomicLock := true
    missing := true }

/-!
Model of `async.retry(ropts, task, fn)`.  The async library makes attempt 1,
and after a failing attempt `i` retries exactly when `i < times` and the
error filter (absent means always) accepts the error; the final callback
receives the last attempt's arguments verbatim.  An attempt is a pair
`(err, result)`; `times = 0` and `times = 1` both make a single attempt.
The task is modelled as a function of the attempt index (0-based), so that
distinct attempts can observe distinct outcomes.
-/

/-- Core retry loop: `n` is the number of retries still allowed after the
current attempt `i`. -/
def retryFrom (task : Nat → Option CBError × α) (filt : CBError → Bool) :
    Nat → Nat → Option CBError × α
  | i, 0 => task i
  | i, n + 1 =>
    match task i with
    | (some e, a) => if filt e then retryFrom task filt (i + 1) n else (some e, a)
    | (none, a) => (none, a)

/-- Number of attempts the core retry loop makes. -/
def retryCallsFrom (task : Nat → Option CBError × α) (filt : CBError → Bool) :
    Nat → Nat → Nat
  | _, 0 => 1
  | i, n + 1 =>
    match task i with
    | (some e, _) => if filt e then 1 + retryCallsFrom task filt (i + 1) n else 1
    | (none, _) => 1

/-- Result of `async.retry` with `times` as maximum attempt count. -/
def asyncRetry (times : Nat) (filt : CBError → Bool)
    (task : Nat → Option CBError × α) : Option CBError × α :=
  retryFrom task filt 0 (times - 1)

/-- Number of attempts `async.retry` makes. -/
def asyncRetryCalls (times : Nat) (filt : CBError → Bool)
    (task : Nat → Option CBError × α) : Nat :=
  retryCallsFrom task filt 0 (times - 1)

/-!
Batch get reconciliation, translated from the `getMulti` branch of
`getDocument` (part_000 lines 355-398).  A raw response maps each key to
`none` when `getRes.hasOwnProperty(k) && getRes[k]` is false (entry absent or
falsy) and to `some entry` otherwise; an entry's `value` is `some` exactly
when the JavaScript value is truthy, and its `error` is `some` exactly when
the entry carries a truthy error.
-/

/-- One entry of a raw `getMulti` response. -/
structure GetEntry (ν : Type) where
  value : Option ν
  cas : Nat
  error : Option CBError
deriving Repr, DecidableEq

/-- Accumulated output of the `keys.forEach` classification loop:
`found` collects `{value, cas}` pairs, `misses` collects keys, and `errs`
collects the singleton arrays pushed by `errors.push([getRes[k].error])`. -/
structure BatchGetResult (κ ν : Type) where
  found : List (ν × Nat)
  misses : List κ
  errs : List (List CBError)
deriving Repr, DecidableEq

/-- The body of the `keys.forEach` loop of `getDocument` (part_000 lines
366-379) for one requested key `k`, acting on the accumulated buckets `r`. -/
def classifyStep (resp : κ → Option (GetEntry ν)) (k : κ) (r : BatchGetResult κ ν) :
    BatchGetResult κ ν :=
  match resp k with
  | none => r
  | some entry =>
    match entry.value with
    | some v => { r with found := (v, entry.cas) :: r.found }
    | none =>
      match entry.error with
      | some e =>
        if isKeyNotFound (some e) then { r with misses := k :: r.misses }
        else { r with errs := [e] :: r.errs }
      | none => r

/-- The `keys.forEach` loop of `getDocument` (part_000 lines 366-379),
processing the requested keys in request order. -/
def classifyKeys (resp : κ → Option (GetEntry ν)) : List κ → BatchGetResult κ ν
  | [] => ⟨[], [], []⟩
  | k :: ks => classifyStep resp k (classifyKeys resp ks)

/-- A key the classification loop leaves in no bucket: its entry is absent or
falsy, or the entry has neither a truthy value nor a truthy error. -/
def entrySkipped (resp : κ → Option (GetEntry ν)) (k : κ) : Bool :=
  match resp k with
  | none => true
  | some entry => entry.value.isNone && entry.error.isNone

/-- The key classifies into `found`. -/
def entryIsHit (resp : κ → Option (GetEntry ν)) (k : κ) : Bool :=
  match resp k with
  | none => false
  | some entry => entry.value.isSome

/-- The key classifies into `misses`. -/
def entryIsMiss (resp : κ → Option (GetEntry ν)) (k : κ) : Bool :=
  match resp k with
  | none => false
  | some entry =>
    match entry.value with
    | some _ => false
    | none =>
      match entry.error with
      | some e => isKeyNotFound (some e)
      | none => false

/-- The key classifies into the error collection. -/
def entryIsErr (resp : κ → Option (GetEntry ν)) (k : κ) : Bool :=
  match resp k with
  | none => false
  | some entry =>
    match entry.value with
    | some _ => false
    | none =>
      match entry.error with
      | some e => !isKeyNotFound (some e)
      | none => false

/-- The error argument handed to the callback: `null` when the collected error
list is empty, otherwise the collection itself (part_000 lines 381-383). -/
def getMultiCallbackError (keys : List κ) (resp : κ → Option (GetEntry ν)) :
    Option (List (List CBError)) :=
  let errs := (classifyKeys resp keys).errs
  if errs.length == 0 then none else some errs

/-- Arity of the callback invocation at the end of the `getMulti` branch. -/
inductive CallbackForm where
  | twoArg
  | threeArg
deriving Repr, DecidableEq

/-- The misses-visibility matrix branch (part_000 lines 385-397):
`configMissing` is `this.config.missing`, `optionsMissing` the `missing`
field of the options bag in effect when the matrix runs (absent field
modelled as `none`; the strict comparisons `=== false` and `=== true` of the
source are equality with `some`).  The options-argument shift that precedes
this branch is modelled by `getDocumentOptionsMissing`; the composition is
`getMultiMissesVisibility`. -/
def getMultiCallbackForm (configMissing : Bool) (optionsMissing : Option Bool) :
    CallbackForm :=
  if configMissing == false then
    if optionsMissing == some true then CallbackForm.threeArg
    else CallbackForm.twoArg
  else
    if optionsMissing == some false then CallbackForm.twoArg
    else CallbackForm.threeArg

/-- The options-argument shift at the top of `getDocument` (part_000 lines
346-349): when the options argument is omitted (the callback occupies its
slot), the source substitutes the bag `{missing: true}`.  The call-level
argument is `none` when the options argument was omitted and `some om` when
an options bag whose `missing` field is `om` was passed. -/
def getDocumentOptionsMissing (optionsArg : Option (Option Bool)) : Option Bool :=
  match optionsArg with
  | none => some true
  | some om => om

/-- The misses-visibility of a multi-key `getDocument` call as a whole: the
options-argument shift followed by the matrix branch. -/
def getMultiMissesVisibility (configMissing : Bool)
    (optionsArg : Option (Option Bool)) : CallbackForm :=
  getMultiCallbackForm configMissing (getDocumentOptionsMissing optionsArg)

/-- The single-key branch callback of `getDocument` (part_000 lines 401-407):
a key-not-found error is cleared and the raw result forwarded unchanged. -/
def singleGetCallback (err : Option CBError) (getRes : Option ρ) :
    Option CBError × Option ρ :=
  ((if isKeyNotFound err then none else err), getRes)

/-!
Write facade.  The underlying bucket is modelled as the family of outcomes of
its calls for a given key: `store key i` is the `(err, result)` pair the
bucket operation would deliver on attempt `i` (0-based) for that key.
-/

/-- Per-call options bag recognized by the facade operations. -/
structure FacadeOptions where
  retryTemporaryErrors : Option Bool
  tempRetryTimes : Option Nat
  tempRetryInterval : Option Nat
deriving Repr, DecidableEq

/-- The `times` field of `ropts` in `write` and `getAndLock`:
`opts.retryTemporaryErrors ? opts.tempRetryTimes : 1` where `opts` is
`defaults(options, this.config)`. -/
def resolvedWriteTimes (options : FacadeOptions) (cfg : DriverConfig) : Nat :=
  if options.retryTemporaryErrors.getD cfg.retryTemporaryErrors then
    options.tempRetryTimes.getD cfg.tempRetryTimes
  else 1

/-- The retry predicate of `write` and `getAndLock`: `errorFilter:
Driver.isTemporaryError` applied to the (truthy) error of a failed attempt. -/
def tempErrorFilter (e : CBError) : Bool :=
  isTemporaryError (some e)

/-- The `write` helper (part_000 lines 464-493): validates the operation name,
short-circuits on an empty key, and otherwise runs the bucket write under
`async.retry` with `resolvedWriteTimes` attempts and `tempErrorFilter`.
The model assumes the bucket object implements both write methods, so the
`typeof this.bucket[type] !== 'function'` disjunct is never taken. -/
def writeRun (type key : String) (options : FacadeOptions) (cfg : DriverConfig)
    (store : String → Nat → Option CBError × Option ρ) :
    Option CBError × Option ρ :=
  if !(type == "insert") && !(type == "upsert") then
    (some ⟨none, some ("Invalid write operation: " ++ type)⟩, none)
  else if key == "" then (none, none)
  else asyncRetry (resolvedWriteTimes options cfg) tempErrorFilter (store key)

/-- Number of bucket calls `write` issues. -/
def writeStoreCalls (type key : String) (options : FacadeOptions)
    (cfg : DriverConfig) (store : String → Nat → Option CBError × Option ρ) : Nat :=
  if !(type == "insert") && !(type == "upsert") then 0
  else if key == "" then 0
  else asyncRetryCalls (resolvedWriteTimes options cfg) tempErrorFilter (store key)

/-- The `insert` facade function (part_000 lines 456-458). -/
def insertRun (key : String) (options : FacadeOptions) (cfg : DriverConfig)
    (store : String → Nat → Option CBError × Option ρ) : Option CBError × Option ρ :=
  writeRun "insert" key options cfg store

/-- Number of bucket calls `insert` issues. -/
def insertStoreCalls (key : String) (options : FacadeOptions) (cfg : DriverConfig)
    (store : String → Nat → Option CBError × Option ρ) : Nat :=
  writeStoreCalls "insert" key options cfg store

/-- The `upsert` facade function (part_000 lines 460-462). -/
def upsertRun (key : String) (options : FacadeOptions) (cfg : DriverConfig)
    (store : String → Nat → Option CBError × Option ρ) : Option CBError × Option ρ :=
  writeRun "upsert" key options cfg store

/-- Number of bucket calls `upsert` issues. -/
def upsertStoreCalls (key : String) (options : FacadeOptions) (cfg : DriverConfig)
    (store : String → Nat → Option CBError × Option ρ) : Nat :=
  writeStoreCalls "upsert" key options cfg store

/-- The per-attempt task of `getAndLock` (part_000 lines 427-432): the bucket
result with a key-not-found error cleared before it reaches `async.retry`. -/
def getAndLockTask (store : Nat → Option CBError × Option ρ) (i : Nat) :
    Option CBError × Option ρ :=
  match store i with
  | (err, getRes) => ((if isKeyNotFound err then none else err), getRes)

/-- The `getAndLock` facade function (part_000 lines 411-434).  There is no
empty-key short-circuit: the bucket call is issued for every key. -/
def getAndLockRun (key : String) (options : FacadeOptions) (cfg : DriverConfig)
    (store : String → Nat → Option CBError × Option ρ) : Option CBError × Option ρ :=
  asyncRetry (resolvedWriteTimes options cfg) tempErrorFilter (getAndLockTask (store key))

/-- Number of bucket calls `getAndLock` issues. -/
def getAndLockStoreCalls (key : String) (options : FacadeOptions) (cfg : DriverConfig)
    (store : String → Nat → Option CBError × Option ρ) : Nat :=
  asyncRetryCalls (resolvedWriteTimes options cfg) tempErrorFilter (getAndLockTask (store key))

/-- The `remove` facade function (part_000 lines 436-454): empty-key
short-circuit, then a single bucket call whose key-not-found error is
cleared; no retry wrapper is involved. -/
def removeRun (key : String) (store : String → Option CBError × Option ρ) :
    Option CBError × Option ρ :=
  if key == "" then (none, none)
  else
    match store key with
    | (err, rres) => ((if isKeyNotFound err then none else err), rres)

/-- Number of bucket calls `remove` issues. -/
def removeStoreCalls (key : String) : Nat :=
  if key == "" then 0 else 1

/-!
Atomic engine (part_000 lines 495-593).
-/

/-- The `OPERATIONS` enumeration (part_000 lines 16-23). -/
def OPERATIONS.UPSERT : String := "upsert"

/-- Member `REMOVE` of the `OPERATIONS` enumeration. -/
def OPERATIONS.REMOVE : String := "remove"

/-- Member `NOOP` of the `OPERATIONS` enumeration. -/
def OPERATIONS.NOOP : String := "noop"

/-- Per-call options bag recognized by `atomic`; `saveOptions` is an opaque
payload of type `σ` (absent when `none`). -/
structure AtomicOptions (σ : Type) where
  atomicRetryTimes : Option Nat
  atomicRetryInterval : Option Nat
  atomicLock : Option Bool
  saveOptions : Option σ
deriving Repr, DecidableEq

/-- The two atomic variants. -/
inductive AtomicVariant where
  | withLock
  | noLock
deriving Repr, DecidableEq

/-- Variant selection in `atomic` (part_000 lines 502-505): the truthiness
test `if (options.atomicLock)` on the raw per-call options bag; the bag is
`{}` when the options argument was omitted.  `defaults(options, this.config)`
is not applied before this test. -/
def atomicDispatch (options : AtomicOptions σ) : AtomicVariant :=
  match options.atomicLock with
  | some true => AtomicVariant.withLock
  | _ => AtomicVariant.noLock

/-- Modelled from the spec claim's words, for comparison with
`atomicDispatch`: the variant the claim says is selected, from `atomicLock`
resolved against the driver-wide configuration default. -/
def claimAtomicDispatch (cfg : DriverConfig) (options : AtomicOptions σ) :
    AtomicVariant :=
  if options.atomicLock.getD cfg.atomicLock then AtomicVariant.withLock
  else AtomicVariant.noLock

/-- The `times` field of `ropts` in `_atomicWithLock` and `_atomicNoLock`:
`defaults(options, this.config).atomicRetryTimes`. -/
def resolvedAtomicRetryTimes (options : AtomicOptions σ) (cfg : DriverConfig) : Nat :=
  options.atomicRetryTimes.getD cfg.atomicRetryTimes

/-- The retry wrapper of `_atomicWithLock` and `_atomicNoLock`: `async.retry`
with `resolvedAtomicRetryTimes` attempts and no `errorFilter` (so any failing
attempt is retried while attempts remain).  The per-attempt body is abstracted
as `task`. -/
def atomicRetryRun (options : AtomicOptions σ) (cfg : DriverConfig)
    (task : Nat → Option CBError × α) : Option CBError × α :=
  asyncRetry (resolvedAtomicRetryTimes options cfg) (fun _ => true) task

/-- Number of attempts the atomic retry wrapper makes. -/
def atomicRetryCalls (options : AtomicOptions σ) (cfg : DriverConfig)
    (task : Nat → Option CBError × α) : Nat :=
  asyncRetryCalls (resolvedAtomicRetryTimes options cfg) (fun _ => true) task

/-- A read document handle `{value, cas}`. -/
structure Doc (ν : Type) where
  value : ν
  cas : Nat
deriving Repr, DecidableEq

/-- The object returned by the transform: `{action, value}`; `value` is
`some` exactly when the JavaScript value is truthy. -/
structure Directive (ν : Type) where
  action : String
  value : Option ν
deriving Repr, DecidableEq

/-- Options attached to the terminal write of an atomic attempt: the CAS
token placed by `doc ? {cas: doc.cas} : {}` and the save-options payload
merged in by `Object.assign(opts, options.saveOptions)` (the payload is
opaque, so it cannot override the `cas` field in this model). -/
structure WriteOpts (σ : Type) where
  cas : Option Nat
  save : Option σ
deriving Repr, DecidableEq

/-- Outcome of one `_atomicWithLock` attempt body after a successful read
(part_000 lines 527-553), as the terminal action it takes. -/
inductive LockStep (ν σ : Type) where
  /-- Noop with no document: `rfn(err, opr.value)` directly. -/
  | noopDone (v : Option ν)
  /-- Noop with a document: unlock with the read CAS, then done. -/
  | unlockThenDone (cas : Nat) (v : Option ν)
  /-- Upsert of `v` through `this.upsert(key, opr.value, opts, rfn)`. -/
  | upsertWrite (v : ν) (w : WriteOpts σ)
  /-- Insert of `v` through `this.insert(key, opr.value, opts, rfn)`. -/
  | insertWrite (v : ν) (w : WriteOpts σ)
  /-- Remove path with a document: unlock with the read CAS, then remove. -/
  | unlockThenRemove (cas : Nat)
  /-- Remove path with no document: `this.unlock(key, doc.cas, ...)`
  dereferences `undefined` and throws a TypeError synchronously. -/
  | throwTypeError
deriving Repr, DecidableEq

/-- One `_atomicWithLock` attempt body (part_000 lines 522-554) after
`getAndLock` succeeded with `doc` (where `none` is the suppressed-not-found
absent document) and the transform returned `opr`. -/
def atomicWithLockStep (options : AtomicOptions σ) (doc : Option (Doc ν))
    (opr : Directive ν) : LockStep ν σ :=
  if opr.action == OPERATIONS.NOOP then
    match doc with
    | none => LockStep.noopDone opr.value
    | some d => LockStep.unlockThenDone d.cas opr.value
  else
    match opr.action == OPERATIONS.UPSERT, opr.value with
    | true, some v =>
      match doc with
      | some d => LockStep.upsertWrite v ⟨some d.cas, options.saveOptions⟩
      | none => LockStep.insertWrite v ⟨none, options.saveOptions⟩
    | _, _ =>
      match doc with
      | some d => LockStep.unlockThenRemove d.cas
      | none => LockStep.throwTypeError

/-- Outcome of one `_atomicNoLock` attempt body after a successful read
(part_000 lines 577-590). -/
inductive NoLockStep (ν σ : Type) where
  /-- Noop: `rfn(null, opr.value)`. -/
  | noopDone (v : Option ν)
  /-- Upsert of `v` through `this.upsert(key, opr.value, opts, rfn)`. -/
  | upsertWrite (v : ν) (w : WriteOpts σ)
  /-- Insert of `v` through `this.insert(key, opr.value, rfn)`; the options
  slot holds the callback, which `write` shifts to an empty options bag. -/
  | insertWrite (v : ν) (w : WriteOpts σ)
  /-- Remove through `this.remove(key, opts, rfn)`. -/
  | removeWrite (w : WriteOpts σ)
deriving Repr, DecidableEq

/-- One `_atomicNoLock` attempt body (part_000 lines 572-591) after `get`
succeeded with `doc` and the transform returned `opr`.  The `options` bag is
received but its `saveOptions` field is never read in this function. -/
def atomicNoLockStep (options : AtomicOptions σ) (doc : Option (Doc ν))
    (opr : Directive ν) : NoLockStep ν σ :=
  let _ := options
  if opr.action == OPERATIONS.NOOP then
    NoLockStep.noopDone opr.value
  else
    match opr.action == OPERATIONS.UPSERT, opr.value with
    | true, some v =>
      match doc with
      | some d => NoLockStep.upsertWrite v ⟨some d.cas, none⟩
      | none => NoLockStep.insertWrite v ⟨none, none⟩
    | _, _ =>
      NoLockStep.removeWrite
        (match doc with
         | some d => ⟨some d.cas, none⟩
         | none => ⟨none, none⟩)

/-!
Concrete inputs used by witnesses and counterexamples.
-/

/-- A response whose single entry is present and truthy but has a falsy
value and no error, like the JavaScript object `\x7b\x7d`. -/
def c5resp : String → Option (GetEntry Nat) :=
  fun _ => some ⟨none, 0, none⟩

/-- A response with one hit, one not-found miss and one genuine error. -/
def c5wresp : String → Option (GetEntry Nat) :=
  fun k =>
    if k == "h" then some ⟨some 42, 7, none⟩
    else if k == "m" then some ⟨none, 0, some ⟨some 13, none⟩⟩
    else some ⟨none, 0, some ⟨some 99, some "boom"⟩⟩

/-- A response whose single entry is a not-found miss. -/
def c9resp : String → Option (GetEntry Nat) :=
  fun _ => some ⟨none, 0, some ⟨some 13, none⟩⟩

/-- A per-call options bag with every field absent. -/
def emptyAtomicOptions : AtomicOptions String :=
  ⟨none, none, none, none⟩

/-- A facade options bag with every field absent. -/
def emptyFacadeOptions : FacadeOptions :=
  ⟨none, none, none⟩

/-- A temporary-failure error (code 11). -/
def tempFailError : CBError :=
  ⟨some 11, none⟩

/-- A key-not-found error (code 13). -/
def notFoundError : CBError :=
  ⟨some 13, none⟩

/-- A CAS-mismatch style write error that is neither not-found nor
temporary. -/
def casConflictError : CBError :=
  ⟨some 12, some "CAS mismatch"⟩

/-- A bucket model that fails every attempt on every key with a temporary
failure. -/
def alwaysTempFailStore : String → Nat → Option CBError × Option Nat :=
  fun _ _ => (some tempFailError, none)

/-- A bucket model that fails every attempt on every key with a CAS-conflict
style error. -/
def alwaysCasFailStore : String → Nat → Option CBError × Option Nat :=
  fun _ _ => (some casConflictError, none)

/-- A bucket model that always succeeds, yielding the value 5. -/
def alwaysOkStore : String → Nat → Option CBError × Option Nat :=
  fun _ _ => (none, some 5)

/-- An atomic attempt task that fails attempt `i` with a CAS-conflict error
carrying the attempt index in its code. -/
def indexedConflictTask : Nat → Option CBError × Option Nat :=
  fun i => (some ⟨some (100 + i), some "CAS mismatch"⟩, none)

/-- A per-call atomic options bag carrying a saveOptions payload. -/
def c2options : AtomicOptions String :=
  ⟨none, none, none, some "persist_to"⟩

/-- A read document handle with value 10 and CAS token 7. -/
def c2doc : Doc Nat :=
  ⟨10, 7⟩

/-- A transform directive requesting an upsert of the truthy value 11. -/
def c2directive : Directive Nat :=
  ⟨"upsert", some 11⟩

/-- A transform directive requesting a remove. -/
def c4directive : Directive Nat :=
  ⟨"remove", none⟩

/-- A facade options bag enabling temporary-error retry with 3 attempts. -/
def c7options : FacadeOptions :=
  ⟨some true, some 3, none⟩

/-!
Theorems.  First the generic facts about the retry executor model, then one
theorem per claim of the specification.
-/

theorem retryFrom_allFail (task : Nat → Option CBError × α) (filt : CBError → Bool)
    (e : Nat → CBError) (a : Nat → α)
    (h : ∀ i, task i = (some (e i), a i)) (hf : ∀ i, filt (e i) = true) :
    ∀ n i, retryFrom task filt i n = (some (e (i + n)), a (i + n)) ∧
      retryCallsFrom task filt i n = n + 1 := by
  intro n
  induction n with
  | zero =>
    intro i
    simp [retryFrom, retryCallsFrom, h i]
  | succ n ih =>
    intro i
    have heq : i + 1 + n = i + (n + 1) := by omega
    constructor
    · rw [retryFrom, h i]
      simp only [hf i, if_true]
      rw [(ih (i + 1)).1, heq]
    · rw [retryCallsFrom, h i]
      simp only [hf i, if_true]
      rw [(ih (i + 1)).2]
      omega

theorem retryCallsFrom_pos (task : Nat → Option CBError × α) (filt : CBError → Bool) :
    ∀ n i, 1 ≤ retryCallsFrom task filt i n := by
  intro n i
  cases n with
  | zero => simp [retryCallsFrom]
  | succ n =>
    rw [retryCallsFrom]
    cases task i with
    | mk err a =>
      cases err with
      | some e =>
        by_cases hf : filt e = true
        · simp [hf]
        · simp [hf]
      | none => simp

theorem retryFrom_stopNonRetryable (task : Nat → Option CBError × α)
    (filt : CBError → Bool) (e : CBError) (a : α) (i : Nat)
    (h : task i = (some e, a)) (hf : filt e = false) :
    ∀ n, retryFrom task filt i n = (some e, a) ∧ retryCallsFrom task filt i n = 1 := by
  intro n
  cases n with
  | zero => simp [retryFrom, retryCallsFrom, h]
  | succ n => simp [retryFrom, retryCallsFrom, h, hf]

/-!
Helper lemmas about the classification loop.
-/

theorem classifyStep_lengths (resp : κ → Option (GetEntry ν)) (k : κ)
    (r : BatchGetResult κ ν) :
    (classifyStep resp k r).found.length =
        r.found.length + (if entryIsHit resp k then 1 else 0) ∧
      (classifyStep resp k r).misses.length =
        r.misses.length + (if entryIsMiss resp k then 1 else 0) ∧
      (classifyStep resp k r).errs.length =
        r.errs.length + (if entryIsErr resp k then 1 else 0) := by
  cases hre : resp k with
  | none => simp [classifyStep, entryIsHit, entryIsMiss, entryIsErr, hre]
  | some entry =>
    cases hv : entry.value with
    | some v => simp [classifyStep, entryIsHit, entryIsMiss, entryIsErr, hre, hv]
    | none =>
      cases he : entry.error with
      | none => simp [classifyStep, entryIsHit, entryIsMiss, entryIsErr, hre, hv, he]
      | some e =>
        by_cases hnf : isKeyNotFound (some e) = true
        · simp [classifyStep, entryIsHit, entryIsMiss, entryIsErr, hre, hv, he, hnf]
        · simp only [Bool.not_eq_true] at hnf
          simp [classifyStep, entryIsHit, entryIsMiss, entryIsErr, hre, hv, he, hnf]

theorem entryClassesPartition (resp : κ → Option (GetEntry ν)) (k : κ) :
    ((if entryIsHit resp k then 1 else 0) : Nat) +
        (if entryIsMiss resp k then 1 else 0) +
        (if entryIsErr resp k then 1 else 0) +
        (if entrySkipped resp k then 1 else 0) = 1 := by
  cases hre : resp k with
  | none => simp [entryIsHit, entryIsMiss, entryIsErr, entrySkipped, hre]
  | some entry =>
    cases hv : entry.value with
    | some v => simp [entryIsHit, entryIsMiss, entryIsErr, entrySkipped, hre, hv]
    | none =>
      cases he : entry.error with
      | none => simp [entryIsHit, entryIsMiss, entryIsErr, entrySkipped, hre, hv, he]
      | some e =>
        by_cases hnf : isKeyNotFound (some e) = true
        · simp [entryIsHit, entryIsMiss, entryIsErr, entrySkipped, hre, hv, he, hnf]
        · simp only [Bool.not_eq_true] at hnf
          simp [entryIsHit, entryIsMiss, entryIsErr, entrySkipped, hre, hv, he, hnf]

theorem classify_lengths (resp : κ → Option (GetEntry ν)) : ∀ keys : List κ,
    (classifyKeys resp keys).found.length =
        keys.countP (fun k => entryIsHit resp k) ∧
      (classifyKeys resp keys).misses.length =
        keys.countP (fun k => entryIsMiss resp k) ∧
      (classifyKeys resp keys).errs.length =
        keys.countP (fun k => entryIsErr resp k) := by
  intro keys
  induction keys with
  | nil => simp [classifyKeys]
  | cons k ks ih =>
    have hs := classifyStep_lengths resp k (classifyKeys resp ks)
    refine ⟨?_, ?_, ?_⟩
    · show (classifyStep resp k (classifyKeys resp ks)).found.length = _
      rw [hs.1, ih.1, List.countP_cons]
    · show (classifyStep resp k (classifyKeys resp ks)).misses.length = _
      rw [hs.2.1, ih.2.1, List.countP_cons]
    · show (classifyStep resp k (classifyKeys resp ks)).errs.length = _
      rw [hs.2.2, ih.2.2, List.countP_cons]

theorem countP_classes (resp : κ → Option (GetEntry ν)) : ∀ keys : List κ,
    keys.countP (fun k => entryIsHit resp k) +
        keys.countP (fun k => entryIsMiss resp k) +
        keys.countP (fun k => entryIsErr resp k) +
        keys.countP (fun k => entrySkipped resp k) = keys.length := by
  intro keys
  induction keys with
  | nil => simp
  | cons k ks ih =>
    simp only [List.countP_cons, List.length_cons]
    have hp := entryClassesPartition resp k
    omega

theorem classify_count (resp : κ → Option (GetEntry ν)) (keys : List κ) :
    (classifyKeys resp keys).found.length + (classifyKeys resp keys).misses.length +
      (classifyKeys resp keys).errs.length +
      keys.countP (fun k => entrySkipped resp k) = keys.length := by
  have hl := classify_lengths resp keys
  rw [hl.1, hl.2.1, hl.2.2]
  exact countP_classes resp keys

theorem classify_errs_nil (resp : κ → Option (GetEntry ν)) (keys : List κ)
    (hall : ∀ k ∈ keys, entryIsErr resp k = false) :
    (classifyKeys resp keys).errs = [] := by
  have hlen := (classify_lengths resp keys).2.2
  have hzero : keys.countP (fun k => entryIsErr resp k) = 0 := by
    rw [List.countP_eq_zero]
    intro a ha
    simp [hall a ha]
  rw [hzero] at hlen
  exact List.length_eq_zero.mp hlen

/-- C5: the batch reconciliation of a multi-key get partitions the requested
keys into found, misses and error entries, with a key skipped when its
response entry is absent or falsy or when the (truthy) entry has neither a
truthy value nor an error; when no key is skipped,
len(found) = len(keys) - len(misses) - len(errors). -/
theorem batch_partition (κ ν : Type) (keys : List κ)
    (resp : κ → Option (GetEntry ν)) :
    (classifyKeys resp keys).found.length + (classifyKeys resp keys).misses.length +
        (classifyKeys resp keys).errs.length +
        keys.countP (fun k => entrySkipped resp k) = keys.length ∧
      ((∀ k ∈ keys, entrySkipped resp k = false) →
        (classifyKeys resp keys).found.length =
          keys.length - (classifyKeys resp keys).misses.length -
            (classifyKeys resp keys).errs.length) := by
  have hcount := classify_count resp keys
  refine ⟨hcount, fun hns => ?_⟩
  have hzero : keys.countP (fun k => entrySkipped resp k) = 0 := by
    rw [List.countP_eq_zero]
    intro a ha
    simp [hns a ha]
  omega

/-- Witness for `batch_partition` at a concrete response in which no key is
skipped: one hit, one miss, one genuine error. -/
theorem batch_partition_witness :
    (classifyKeys c5wresp ["h", "m", "e"]).found.length =
      (["h", "m", "e"] : List String).length -
        (classifyKeys c5wresp ["h", "m", "e"]).misses.length -
        (classifyKeys c5wresp ["h", "m", "e"]).errs.length :=
  (batch_partition String Nat ["h", "m", "e"] c5wresp).2 (by decide)

/-- C5 counterexample: a response entry that is present and truthy but has
neither a truthy value nor an error (for example `{}`) is also skipped, so
the partition fails even though no entry is absent or falsy: the single
requested key lands in none of the three buckets. -/
theorem batch_partition_cex :
    (∀ k ∈ ["k1"], c5resp k ≠ none) ∧
      classifyKeys c5resp ["k1"] = ⟨[], [], []⟩ ∧
      (classifyKeys c5resp ["k1"]).found.length ≠
        (["k1"] : List String).length - (classifyKeys c5resp ["k1"]).misses.length -
          (classifyKeys c5resp ["k1"]).errs.length := by
  decide

/-- C9: the error argument of a multi-key get callback is null exactly when
the per-key error collection is empty; otherwise it is that collection
itself; and when no requested key classifies as a genuine error (in
particular when keys are merely missing) the error argument is null. -/
theorem batch_error_null_iff_empty (κ ν : Type) (keys : List κ)
    (resp : κ → Option (GetEntry ν)) :
    (getMultiCallbackError keys resp = none ↔ (classifyKeys resp keys).errs = []) ∧
      ((classifyKeys resp keys).errs ≠ [] →
        getMultiCallbackError keys resp = some (classifyKeys resp keys).errs) ∧
      ((∀ k ∈ keys, entryIsErr resp k = false) →
        getMultiCallbackError keys resp = none) := by
  refine ⟨?_, ?_, ?_⟩
  · unfold getMultiCallbackError
    cases h : (classifyKeys resp keys).errs with
    | nil => simp [h]
    | cons a l => simp [h]
  · intro hne
    unfold getMultiCallbackError
    cases h : (classifyKeys resp keys).errs with
    | nil => exact absurd h hne
    | cons a l => simp [h]
  · intro hall
    have hnil := classify_errs_nil resp keys hall
    unfold getMultiCallbackError
    simp [hnil]

/-- Witness for `batch_error_null_iff_empty`: a batch whose only key is a
not-found miss yields a null error argument. -/
theorem batch_error_null_iff_empty_witness :
    getMultiCallbackError ["a"] c9resp = none :=
  (batch_error_null_iff_empty String Nat ["a"] c9resp).2.2 (by decide)

/-- C1: the code bug behind the claim — `atomic` tests the raw per-call
`options.atomicLock` instead of the value resolved against the driver-wide
configuration, so with the default driver configuration (atomicLock true)
and a call that does not set atomicLock, the non-locking variant runs, while
the documented resolution (Default: true) selects the locking variant. -/
theorem atomic_dispatch_ignores_driver_default :
    atomicDispatch emptyAtomicOptions = AtomicVariant.noLock ∧
      defaultOptions.atomicLock = true ∧
      claimAtomicDispatch defaultOptions emptyAtomicOptions =
        AtomicVariant.withLock := by
  decide

/-- C2 (amended): for an attempt whose transform returns Upsert with a
truthy value, the locking variant upserts with the read CAS merged with the
per-call saveOptions when a document was read and inserts with saveOptions
and no CAS when none was; the non-locking variant upserts with the read CAS
only (saveOptions are not merged) and inserts with no options bag at all. -/
theorem atomic_upsert_write_options (ν σ : Type) (options : AtomicOptions σ)
    (d : Doc ν) (opr : Directive ν) (v : ν)
    (ha : opr.action = OPERATIONS.UPSERT) (hv : opr.value = some v) :
    atomicWithLockStep options (some d) opr =
        LockStep.upsertWrite v ⟨some d.cas, options.saveOptions⟩ ∧
      atomicWithLockStep options none opr =
        LockStep.insertWrite v ⟨none, options.saveOptions⟩ ∧
      atomicNoLockStep options (some d) opr =
        NoLockStep.upsertWrite v ⟨some d.cas, none⟩ ∧
      atomicNoLockStep options none opr =
        NoLockStep.insertWrite v ⟨none, none⟩ := by
  simp [atomicWithLockStep, atomicNoLockStep, ha, hv,
    OPERATIONS.UPSERT, OPERATIONS.NOOP]

/-- Witness for `atomic_upsert_write_options` at a concrete document,
directive and saveOptions payload. -/
theorem atomic_upsert_write_options_witness :
    atomicWithLockStep c2options (some c2doc) c2directive =
        LockStep.upsertWrite 11 ⟨some 7, some "persist_to"⟩ ∧
      atomicWithLockStep c2options none c2directive =
        LockStep.insertWrite 11 ⟨none, some "persist_to"⟩ ∧
      atomicNoLockStep c2options (some c2doc) c2directive =
        NoLockStep.upsertWrite 11 ⟨some 7, none⟩ ∧
      atomicNoLockStep c2options none c2directive =
        NoLockStep.insertWrite 11 ⟨none, none⟩ :=
  atomic_upsert_write_options Nat String c2options c2doc c2directive 11 rfl rfl

/-- C2 counterexample: in the non-locking variant, a call that passes a
saveOptions payload still issues the upsert carrying the read CAS without
that payload, so the write options are not `cas` merged with saveOptions. -/
theorem atomicNoLock_drops_saveOptions_cex :
    c2options.saveOptions = some "persist_to" ∧
      atomicNoLockStep c2options (some c2doc) c2directive =
        NoLockStep.upsertWrite 11 ⟨some 7, none⟩ ∧
      NoLockStep.upsertWrite 11 (⟨some 7, none⟩ : WriteOpts String) ≠
        NoLockStep.upsertWrite 11 ⟨some 7, some "persist_to"⟩ := by
  decide

/-- C3: an atomic call whose per-attempt body fails on every attempt calls
back with a failure after exactly the resolved atomicRetryTimes attempts,
and the surfaced error is the last attempt's error itself. -/
theorem atomic_retry_exhaustion (σ α : Type) (options : AtomicOptions σ)
    (cfg : DriverConfig) (task : Nat → Option CBError × Option α)
    (e : Nat → CBError) (a : Nat → Option α)
    (ht : 1 ≤ resolvedAtomicRetryTimes options cfg)
    (h : ∀ i, task i = (some (e i), a i)) :
    atomicRetryRun options cfg task =
        (some (e (resolvedAtomicRetryTimes options cfg - 1)),
          a (resolvedAtomicRetryTimes options cfg - 1)) ∧
      atomicRetryCalls options cfg task =
        resolvedAtomicRetryTimes options cfg := by
  have hall := retryFrom_allFail task (fun _ => true) e a h (fun i => rfl)
  have h1 := hall (resolvedAtomicRetryTimes options cfg - 1) 0
  simp only [Nat.zero_add] at h1
  unfold atomicRetryRun atomicRetryCalls asyncRetry asyncRetryCalls
  refine ⟨h1.1, ?_⟩
  rw [h1.2]
  omega

/-- Witness for `atomic_retry_exhaustion`: with the default configuration
(5 attempts) and a task failing attempt i with error code 100 + i, the call
fails after 5 attempts with the error of attempt 4 verbatim. -/
theorem atomic_retry_exhaustion_witness :
    atomicRetryRun emptyAtomicOptions defaultOptions indexedConflictTask =
        (some ⟨some 104, some "CAS mismatch"⟩, none) ∧
      atomicRetryCalls emptyAtomicOptions defaultOptions indexedConflictTask = 5 :=
  atomic_retry_exhaustion String Nat emptyAtomicOptions defaultOptions
    indexedConflictTask (fun i => ⟨some (100 + i), some "CAS mismatch"⟩)
    (fun _ => none) (by decide) (fun _ => rfl)

/-- C4: in the locking variant, when the read returned no document and the
directive is neither Noop nor Upsert-with-truthy-value, the attempt
dereferences the absent document handle and throws a TypeError. -/
theorem atomicWithLock_missing_doc_throws (ν σ : Type)
    (options : AtomicOptions σ) (opr : Directive ν)
    (hnoop : opr.action ≠ OPERATIONS.NOOP)
    (hup : opr.action = OPERATIONS.UPSERT → opr.value = none) :
    atomicWithLockStep options none opr = LockStep.throwTypeError := by
  unfold atomicWithLockStep
  have hb : (opr.action == OPERATIONS.NOOP) = false := by
    simp [hnoop]
  by_cases haup : opr.action = OPERATIONS.UPSERT
  · have hv := hup haup
    simp [hb, haup, hv, OPERATIONS.UPSERT, OPERATIONS.NOOP]
  · have hbu : (opr.action == OPERATIONS.UPSERT) = false := by simp [haup]
    cases hv : opr.value <;> simp [hb, hbu, hv]

/-- Witness for `atomicWithLock_missing_doc_throws`: a transform returning
a Remove directive for a missing key reaches the TypeError branch. -/
theorem atomicWithLock_missing_doc_throws_witness :
    atomicWithLockStep emptyAtomicOptions none c4directive =
      LockStep.throwTypeError :=
  atomicWithLock_missing_doc_throws Nat String emptyAtomicOptions c4directive
    (by decide) (by decide)

/-- C6 counterexample: a multi-key get that omits the options argument on a
driver configured with missing=false does not set missing=true, yet the
callback receives three arguments — the source substitutes the bag
`{missing: true}` for the omitted argument before the matrix runs — so the
claim's first matrix row fails at this input. -/
theorem missing_visibility_omitted_options_cex :
    getMultiMissesVisibility false none = CallbackForm.threeArg ∧
      CallbackForm.threeArg ≠ CallbackForm.twoArg := by
  decide

/-- C6 (amended): the misses-visibility matrix of a multi-key get, after the
options-argument normalization — an omitted options argument is replaced by
the bag `{missing: true}` and therefore behaves as a call that explicitly
sets missing true (three arguments even under driver-wide missing false).
For calls that pass an options bag: with driver-wide missing false and the
bag not setting missing true, two arguments; a bag setting missing true
always yields three; with driver-wide missing true, three arguments unless
the bag sets missing false. -/
theorem missing_visibility_matrix_amended :
    ∀ (configMissing : Bool) (optionsArg : Option (Option Bool)),
      (configMissing = false → optionsArg ≠ none →
        getDocumentOptionsMissing optionsArg ≠ some true →
        getMultiMissesVisibility configMissing optionsArg = CallbackForm.twoArg) ∧
      (getDocumentOptionsMissing optionsArg = some true →
        getMultiMissesVisibility configMissing optionsArg = CallbackForm.threeArg) ∧
      (optionsArg = none →
        getMultiMissesVisibility configMissing optionsArg = CallbackForm.threeArg) ∧
      (configMissing = true → getDocumentOptionsMissing optionsArg ≠ some false →
        getMultiMissesVisibility configMissing optionsArg = CallbackForm.threeArg) ∧
      (configMissing = true → getDocumentOptionsMissing optionsArg = some false →
        getMultiMissesVisibility configMissing optionsArg = CallbackForm.twoArg) := by
  decide

/-- Witness for `missing_visibility_matrix_amended` at concrete cells: a
passed bag without missing under driver-wide missing false (two arguments),
an omitted options argument under driver-wide missing false (three
arguments), and a bag setting missing false under driver-wide missing true
(two arguments). -/
theorem missing_visibility_matrix_amended_witness :
    getMultiMissesVisibility false (some none) = CallbackForm.twoArg ∧
      getMultiMissesVisibility false none = CallbackForm.threeArg ∧
      getMultiMissesVisibility true (some (some false)) = CallbackForm.twoArg :=
  ⟨(missing_visibility_matrix_amended false (some none)).1 rfl (by decide) (by decide),
   (missing_visibility_matrix_amended false none).2.2.1 rfl,
   (missing_visibility_matrix_amended true (some (some false))).2.2.2.2 rfl rfl⟩

/-- C7 (amended): insert, upsert and getAndLock wrap the store call in the
bounded-retry executor with maxAttempts resolved as retryTemporaryErrors ?
tempRetryTimes : 1 and the temporary-error predicate — one store call when
resolved retryTemporaryErrors is false, no retry after a non-temporary
failure, and exactly tempRetryTimes calls against an always-temporarily-
failing store when retry is enabled; remove instead issues exactly one store
call with no retry wrapper. -/
theorem facade_retry_wiring (ρ : Type) (key : String) (options : FacadeOptions)
    (cfg : DriverConfig) (store : String → Nat → Option CBError × Option ρ)
    (hkey : key ≠ "") :
    (options.retryTemporaryErrors.getD cfg.retryTemporaryErrors = false →
      insertStoreCalls key options cfg store = 1 ∧
        upsertStoreCalls key options cfg store = 1 ∧
        getAndLockStoreCalls key options cfg store = 1) ∧
      (∀ (e : CBError) (res : Option ρ), store key 0 = (some e, res) →
        tempErrorFilter e = false →
        insertStoreCalls key options cfg store = 1 ∧
          upsertStoreCalls key options cfg store = 1) ∧
      (∀ e : CBError, tempErrorFilter e = true →
        options.retryTemporaryErrors.getD cfg.retryTemporaryErrors = true →
        1 ≤ options.tempRetryTimes.getD cfg.tempRetryTimes →
        (∀ i, store key i = (some e, none)) →
        insertStoreCalls key options cfg store =
          options.tempRetryTimes.getD cfg.tempRetryTimes) ∧
      removeStoreCalls key = 1 := by
  have hins : insertStoreCalls key options cfg store =
      asyncRetryCalls (resolvedWriteTimes options cfg) tempErrorFilter (store key) := by
    unfold insertStoreCalls writeStoreCalls
    simp [hkey]
  have hups : upsertStoreCalls key options cfg store =
      asyncRetryCalls (resolvedWriteTimes options cfg) tempErrorFilter (store key) := by
    unfold upsertStoreCalls writeStoreCalls
    simp [hkey]
  refine ⟨?_, ?_, ?_, ?_⟩
  · intro hf
    have ht : resolvedWriteTimes options cfg = 1 := by
      unfold resolvedWriteTimes
      rw [hf]
      simp
    refine ⟨?_, ?_, ?_⟩
    · rw [hins, ht]
      rfl
    · rw [hups, ht]
      rfl
    · unfold getAndLockStoreCalls
      rw [ht]
      rfl
  · intro e res h0 hfe
    have hstop := retryFrom_stopNonRetryable (store key) tempErrorFilter e res 0 h0 hfe
    constructor
    · rw [hins]
      simp only [asyncRetryCalls]
      exact (hstop _).2
    · rw [hups]
      simp only [asyncRetryCalls]
      exact (hstop _).2
  · intro e hfe htrue h1 hall
    have ht : resolvedWriteTimes options cfg =
        options.tempRetryTimes.getD cfg.tempRetryTimes := by
      unfold resolvedWriteTimes
      rw [htrue]
      simp
    have hcalls := retryFrom_allFail (store key) tempErrorFilter (fun _ => e)
      (fun _ => none) hall (fun _ => hfe)
    rw [hins, ht]
    simp only [asyncRetryCalls]
    rw [(hcalls _ 0).2]
    omega
  · unfold removeStoreCalls
    simp [hkey]

/-- Witness for `facade_retry_wiring`: with the default configuration
(temporary-error retry disabled) an insert on a non-empty key issues one
store call, and remove issues one. -/
theorem facade_retry_wiring_witness :
    insertStoreCalls "k" emptyFacadeOptions defaultOptions alwaysOkStore = 1 ∧
      removeStoreCalls "k" = 1 :=
  ⟨((facade_retry_wiring Nat "k" emptyFacadeOptions defaultOptions alwaysOkStore
      (by decide)).1 (by decide)).1,
   (facade_retry_wiring Nat "k" emptyFacadeOptions defaultOptions alwaysOkStore
      (by decide)).2.2.2⟩

/-- C7 counterexample: with temporary-error retry enabled (tempRetryTimes 3)
and a store failing every attempt with a temporary error, remove still issues
exactly one store call and surfaces the temporary error, whereas the claimed
retry wrapping would issue three. -/
theorem remove_not_retry_wrapped_cex :
    removeStoreCalls "k" = 1 ∧
      removeRun "k" (fun k => alwaysTempFailStore k 0) = (some tempFailError, none) ∧
      resolvedWriteTimes c7options defaultOptions = 3 ∧
      asyncRetryCalls (resolvedWriteTimes c7options defaultOptions) tempErrorFilter
        (alwaysTempFailStore "k") = 3 ∧
      (1 : Nat) ≠ 3 := by
  decide

/-- C8: NotFound normalization across the read and remove facade — a
key-not-found error is cleared and the raw result passed through unchanged
by single-key get, by getAndLock and by remove, while any other error is
propagated unmodified. -/
theorem notfound_normalization (ρ : Type) (key : String) (e : CBError)
    (res : Option ρ) (hkey : key ≠ "") :
    (isKeyNotFound (some e) = true →
      singleGetCallback (some e) res = (none, res) ∧
        getAndLockTask (fun _ => (some e, res)) 0 = (none, res) ∧
        removeRun key (fun _ => (some e, res)) = (none, res)) ∧
      (isKeyNotFound (some e) = false →
        singleGetCallback (some e) res = (some e, res) ∧
          getAndLockTask (fun _ => (some e, res)) 0 = (some e, res) ∧
          removeRun key (fun _ => (some e, res)) = (some e, res)) := by
  have hkeyb : (key == "") = false := by simp [hkey]
  constructor
  · intro h
    refine ⟨?_, ?_, ?_⟩ <;>
      simp [singleGetCallback, getAndLockTask, removeRun, h, hkeyb]
  · intro h
    refine ⟨?_, ?_, ?_⟩ <;>
      simp [singleGetCallback, getAndLockTask, removeRun, h, hkeyb]

/-- Witness for `notfound_normalization`: remove on a nonexistent key (the
store reports a key-not-found error, code 13) yields no error. -/
theorem notfound_normalization_witness :
    removeRun "k" (fun _ => (some notFoundError, (none : Option Nat))) =
      (none, none) :=
  ((notfound_normalization Nat "k" notFoundError none (by decide)).1 (by decide)).2.2

/-- C10 (amended): insert, upsert and remove on an empty key complete as a
no-op success (no error, no result) without a store call; getAndLock has no
such guard and issues the store call even for the empty key. -/
theorem empty_key_short_circuit (ρ : Type) (options : FacadeOptions)
    (cfg : DriverConfig) (store : String → Nat → Option CBError × Option ρ) :
    insertRun "" options cfg store = (none, none) ∧
      insertStoreCalls "" options cfg store = 0 ∧
      upsertRun "" options cfg store = (none, none) ∧
      upsertStoreCalls "" options cfg store = 0 ∧
      removeRun "" (fun k => store k 0) = (none, none) ∧
      removeStoreCalls "" = 0 ∧
      1 ≤ getAndLockStoreCalls "" options cfg store := by
  refine ⟨?_, ?_, ?_, ?_, ?_, ?_, ?_⟩
  · simp [insertRun, writeRun]
  · simp [insertStoreCalls, writeStoreCalls]
  · simp [upsertRun, writeRun]
  · simp [upsertStoreCalls, writeStoreCalls]
  · simp [removeRun]
  · simp [removeStoreCalls]
  · unfold getAndLockStoreCalls asyncRetryCalls
    exact retryCallsFrom_pos _ _ _ _

/-- C10 counterexample: getAndLock with the empty key issues one store call
and delivers the store's result, instead of completing as a no-op success
without a store call. -/
theorem getAndLock_empty_key_cex :
    getAndLockStoreCalls "" emptyFacadeOptions defaultOptions alwaysOkStore = 1 ∧
      (1 : Nat) ≠ 0 ∧
      getAndLockRun "" emptyFacadeOptions defaultOptions alwaysOkStore =
        (none, some 5) := by
  decide

end Driver
